import Mathlib

/-!
Shallow embedding of the checkpoint/snapshot subsystem found in
src/engines/default/chkpt_snapshot.c (arcus-memcached).

Bytes are modelled as natural numbers, files as lists of bytes, and the
external collaborators (the log-record codec, the item scanner, the redo
path, the write/fsync system calls) as explicit oracle parameters, so that
every function here is a faithful, executable translation of the control
flow of the corresponding C function.
-/

/-! ### Snapshot mode constants (enum chkpt_snapshot_mode) -/

def CHKPT_SNAPSHOT_MODE_KEY : Nat := 0

def CHKPT_SNAPSHOT_MODE_DATA : Nat := 1

def CHKPT_SNAPSHOT_MODE_CHKPT : Nat := 2

def CHKPT_SNAPSHOT_MODE_MAX : Nat := 3

/-! ### Buffer manager (struct snapshot_buffer + the open file)

The C buffer is a byte array `memory` with fill length `curlen` and capacity
`maxlen`, writing to the open snapshot file descriptor.  We carry the buffer
contents as a list (whose length is `curlen`) together with the bytes that
have reached the file so far.  The `write` system call is modelled by an
oracle `nw : Nat -> Nat` giving the number of bytes actually written for a
request of the given size (a short write returns fewer bytes). -/

structure BufFile where
  maxlen : Nat
  memory : List Nat
  file : List Nat
deriving Repr, DecidableEq

/-- do_snapshot_buffer_check_space: if `curlen + needsize > maxlen`, write the
current buffer contents to the file; a short write returns -1 with `curlen`
left unchanged, otherwise `curlen` is reset to 0.  No fsync here. -/
def do_snapshot_buffer_check_space (nw : Nat → Nat) (needsize : Nat) (b : BufFile) :
    BufFile × Int :=
  if b.memory.length + needsize > b.maxlen then
    let n := nw b.memory.length
    let b2 : BufFile := { b with file := b.file ++ b.memory.take n }
    if n = b.memory.length then ({ b2 with memory := [] }, 0) else (b2, -1)
  else (b, 0)

/-- do_snapshot_buffer_flush: write any buffered bytes (short write returns -1
with `curlen` unchanged), then call fsync.  The C code discards the fsync
result with a void cast, so `fsyncOk` does not influence the outcome. -/
def do_snapshot_buffer_flush (nw : Nat → Nat) (fsyncOk : Bool) (b : BufFile) :
    BufFile × Int :=
  if b.memory.length > 0 then
    let n := nw b.memory.length
    let b2 : BufFile := { b with file := b.file ++ b.memory.take n }
    if n = b.memory.length then
      let _ := fsyncOk
      ({ b2 with memory := [] }, 0)
    else (b2, -1)
  else
    let _ := fsyncOk
    (b, 0)

/-- do_snapshot_buffer_reset. -/
def do_snapshot_buffer_reset (b : BufFile) : BufFile :=
  { b with memory := [] }

/-- The memcpy-and-advance step shared by the dump functions: after a
successful space check the encoded record bytes are appended at `curlen`
and `curlen` is advanced by the record size. -/
def snapshot_buffer_append (rec : List Nat) (b : BufFile) : BufFile :=
  { b with memory := b.memory ++ rec }

/-- One record write as performed by the dump functions: check space for the
record size, abort on failure, otherwise append the record bytes. -/
def snapshot_write_record (nw : Nat → Nat) (rec : List Nat) (b : BufFile) :
    BufFile × Int :=
  let r := do_snapshot_buffer_check_space nw rec.length b
  if r.2 = 0 then (snapshot_buffer_append rec r.1, 0) else r

/-- A sequence of record writes with early abort on failure. -/
def snapshot_write_records (nw : Nat → Nat) (recs : List (List Nat)) (b : BufFile) :
    BufFile × Int :=
  match recs with
  | [] => (b, 0)
  | rec :: rest =>
    let r := snapshot_write_record nw rec b
    if r.2 = 0 then snapshot_write_records nw rest r.1 else r

/-- The write oracle for runs in which every write system call succeeds in
full. -/
def fullWrite : Nat → Nat := fun n => n

/-! ### Key-listing encoder (do_snapshot_key_dump), expiration field

`rel_time_t` is a 32-bit unsigned integer; `(rel_time_t)-1` is 4294967295
and marks a sticky (pinned) item. -/

def REL_TIME_STICKY : Nat := 4294967295

/-- The expiration field of one key-dump line, exactly as produced by
do_snapshot_key_dump: a space, the encoded expiry, and a newline. -/
def do_snapshot_key_exptime (curtime exptime : Nat) : String :=
  if exptime = 0 then " 0\n"
  else if exptime = REL_TIME_STICKY then " -1\n"
  else
    let diff_time := if exptime > curtime then exptime - curtime else 1
    " " ++ toString diff_time ++ "\n"

/-- One full key-dump line: type tag, space, key, expiration field. -/
def do_snapshot_key_line (typeTag : String) (key : String) (curtime exptime : Nat) :
    String :=
  typeTag ++ " " ++ key ++ do_snapshot_key_exptime curtime exptime

/-! ### Scan-drain loop (do_snapshot_action)

The external scanner item_scan_getnext is modelled by a list of results: an
out-of-memory sentinel (-2), an end-of-scan sentinel (any other negative
value), or a batch of items (whose count may be zero).  The dump and done
steps of the active mode are oracles returning success or failure.  The
observable calls are recorded as events. -/

inductive ScanStep where
  | oom : ScanStep
  | eos : ScanStep
  | cnt : List Nat → ScanStep
deriving Repr, DecidableEq

inductive ActEvent where
  | dumpEv : List Nat → ActEvent
  | releaseEv : List Nat → ActEvent
  | doneEv : ActEvent
deriving Repr, DecidableEq

/-- The while loop of do_snapshot_action.  The result boolean is the local
`snapshot_done`, which the function stores into `ss->success`.  `reqstop` is
the stop flag as observed by this run (constant in the sequential model). -/
def do_snapshot_action_loop (reqstop : Bool) (dump : List Nat → Bool) (doneOk : Bool) :
    List ScanStep → Bool × List ActEvent
  | [] => (false, [])
  | step :: rest =>
    if reqstop then (false, [])
    else
      match step with
      | ScanStep.oom => (false, [])
      | ScanStep.eos => (doneOk, [ActEvent.doneEv])
      | ScanStep.cnt items =>
        if items.length > 0 then
          if dump items then
            let r := do_snapshot_action_loop reqstop dump doneOk rest
            (r.1, ActEvent.dumpEv items :: ActEvent.releaseEv items :: r.2)
          else (false, [ActEvent.dumpEv items, ActEvent.releaseEv items])
        else do_snapshot_action_loop reqstop dump doneOk rest

/-! ### Snapshot controller state (snapshot_st)

The prefix pointer and its length are carried as `pfx`/`npfx` (the C names
hold a Lean keyword).  `npfx = -1` means no prefix restriction, `npfx = 0`
the explicit empty prefix.  The completion callback is an opaque handle. -/

structure SnapshotSt where
  running : Bool
  success : Bool
  reqstop : Bool
  mode : Nat
  snapped : Nat
  started : Nat
  stopped : Nat
  pfx : String
  npfx : Int
  filePath : String
  fileFd : Int
  fileSize : Nat
  bufCurlen : Nat
  cbDone : Option Nat
deriving Repr, DecidableEq

inductive EngineErr where
  | success : EngineErr
  | failed : EngineErr
  | ebadvalue : EngineErr
deriving Repr, DecidableEq

/-- do_snapshot_argcheck: reject an out-of-range mode. -/
def do_snapshot_argcheck (mode : Nat) : EngineErr :=
  if mode ≥ CHKPT_SNAPSHOT_MODE_MAX then EngineErr.ebadvalue else EngineErr.success

/-- do_snapshot_prepare: reset the per-run fields of the snapshot anchor.
`now` stands for the time(NULL) call. -/
def do_snapshot_prepare (ss : SnapshotSt) (mode : Nat) (pfx : String) (npfx : Int)
    (filepath : Option String) (cb : Option Nat) (now : Nat) : SnapshotSt :=
  { ss with
    success := false
    reqstop := false
    mode := mode
    snapped := 0
    started := now
    stopped := 0
    pfx := pfx
    npfx := npfx
    cbDone := cb
    filePath := filepath.getD "chkpt_snapshot"
    fileFd := -1
    fileSize := 0
    bufCurlen := 0 }

/-- do_snapshot_direct: fail immediately when a run is already in progress,
leaving the state untouched; otherwise prepare, run the snapshot action
(modelled by the `action` oracle, executed with the lock released), and
clear `running`. -/
def do_snapshot_direct (action : SnapshotSt → SnapshotSt × Bool) (ss : SnapshotSt)
    (mode : Nat) (pfx : String) (npfx : Int) (filepath : Option String) (now : Nat) :
    SnapshotSt × EngineErr :=
  if ss.running then (ss, EngineErr.failed)
  else
    let ss1 := { do_snapshot_prepare ss mode pfx npfx filepath none now with
                 running := true }
    let r := action ss1
    ({ r.1 with running := false },
     if r.2 then EngineErr.success else EngineErr.failed)

/-- do_snapshot_start: fail immediately when a run is already in progress,
leaving the state untouched; otherwise prepare, set `running`, and spawn the
detached worker thread (`threadOk` models the pthread calls), rolling
`running` back if thread creation fails. -/
def do_snapshot_start (threadOk : Bool) (ss : SnapshotSt) (mode : Nat) (pfx : String)
    (npfx : Int) (filepath : Option String) (cb : Option Nat) (now : Nat) :
    SnapshotSt × EngineErr :=
  if ss.running then (ss, EngineErr.failed)
  else
    let ss1 := { do_snapshot_prepare ss mode pfx npfx filepath cb now with
                 running := true }
    if threadOk then (ss1, EngineErr.success)
    else ({ ss1 with running := false }, EngineErr.failed)

/-! ### Stop (do_snapshot_stop)

The while loop re-reads `ss->running` after each unlock/sleep/lock cycle;
the values observed at the successive re-acquisitions are supplied as the
list `obs`.  `none` means the observation trace ran out while the loop was
still waiting (the C loop would still be sleeping). -/

def do_snapshot_stop_loop (wait_stop : Bool) : List Bool → SnapshotSt → Option SnapshotSt
  | obs, ss =>
    if ss.running = false then some ss
    else
      let ss1 := { ss with reqstop := true }
      if wait_stop = false then some ss1
      else
        match obs with
        | [] => none
        | r :: rest => do_snapshot_stop_loop wait_stop rest { ss1 with running := r }

/-- do_snapshot_stop: a no-op when no run is in progress or the active mode
is CHKPT; otherwise run the stop loop. -/
def do_snapshot_stop (wait_stop : Bool) (obs : List Bool) (ss : SnapshotSt) :
    Option SnapshotSt :=
  if ss.running = false ∨ ss.mode = CHKPT_SNAPSHOT_MODE_CHKPT then some ss
  else do_snapshot_stop_loop wait_stop obs ss

/-! ### File validity check (chkpt_snapshot_check_file_validity)

A file is a byte list together with the current read position of its
descriptor.  The seek to `-sizeof(SnapshotDoneLog)` from the end fails
exactly when the file is shorter than the terminal record. -/

structure FileState where
  data : List Nat
  pos : Nat
deriving Repr, DecidableEq

/-- Modelled from the spec: lrec_check_snapshot_done (defined in the
log-record module, outside src/) decides whether the given bytes are a
well-formed SnapshotDone terminal record; the predicate itself stays
abstract and the 0 / -1 return convention follows the error convention used
throughout this module ("fail if ... the bytes are not a well-formed terminal
record"). -/
def lrec_check_snapshot_done (isDone : List Nat → Bool) (bytes : List Nat) : Int :=
  if isDone bytes then 0 else -1

/-- chkpt_snapshot_check_file_validity: seek to the terminal-record offset
from the file end, read the terminal record, rewind to the file start, report
the implied file size, and return the terminal-record check result.  The
result triple is (return value, reported filesize, file state). -/
def chkpt_snapshot_check_file_validity (isDone : List Nat → Bool) (doneSize : Nat)
    (f : FileState) : Int × Option Nat × FileState :=
  if f.data.length < doneSize then (-1, none, f)
  else
    let offset := f.data.length - doneSize
    let bytes := (f.data.drop offset).take doneSize
    (lrec_check_snapshot_done isDone bytes, some (offset + doneSize),
     { f with pos := 0 })

/-! ### Recovery replay (chkpt_snapshot_file_apply)

The log-record module (outside src/) supplies the header layout, the redo
path and the collection-item lookup; they are carried as oracles in a
context.  `decodeHdr` maps the raw header bytes to the pair
(logtype, body_length); `redo` maps a full record (header plus body bytes)
to the outcome of lrec_redo_from_record; `getCollItem` models
lrec_get_item_if_collection_link, returning the retained collection item
handle when the linked item is a collection.  Record kind tags are modelled
from the spec as distinct constants (LOG_IT_LINK, LOG_SNAPSHOT_ELEM,
LOG_SNAPSHOT_DONE of the external enum); only their distinctness matters. -/

def LOG_IT_LINK : Nat := 0

def LOG_SNAPSHOT_ELEM : Nat := 1

def LOG_SNAPSHOT_DONE : Nat := 2

inductive RedoRes where
  | success : RedoRes
  | enomem : RedoRes
  | other : RedoRes
deriving Repr, DecidableEq

structure ReplayCtx where
  hdrSize : Nat
  maxRec : Nat
  decodeHdr : List Nat → Nat × Nat
  redo : List Nat → RedoRes
  getCollItem : List Nat → Option Nat
  engineInit : Bool

inductive ReadResult where
  | shortHdr : ReadResult
  | tooBig : ReadResult
  | shortBody : ReadResult
  | ok : Nat → List Nat → Nat → ReadResult
deriving Repr, DecidableEq

/-- One header+body read of the replay loop, at byte position `pos` of the
file: a header read shorter than sizeof(LogHdr) is `shortHdr`; a declared
body length above MAX_LOG_RECORD_SIZE - sizeof(LogHdr) is `tooBig`; a body
read shorter than the declared length is `shortBody`; otherwise the full
record bytes and the next position are returned. -/
def readRecord (ctx : ReplayCtx) (file : List Nat) (pos : Nat) : ReadResult :=
  if file.length - pos < ctx.hdrSize then ReadResult.shortHdr
  else
    let hdr := (file.drop pos).take ctx.hdrSize
    let lt := (ctx.decodeHdr hdr).1
    let blen := (ctx.decodeHdr hdr).2
    if blen > 0 then
      if ctx.maxRec - ctx.hdrSize < blen then ReadResult.tooBig
      else if file.length - (pos + ctx.hdrSize) < blen then ReadResult.shortBody
      else
        ReadResult.ok lt (hdr ++ (file.drop (pos + ctx.hdrSize)).take blen)
          (pos + ctx.hdrSize + blen)
    else ReadResult.ok lt hdr (pos + ctx.hdrSize)

/-- Observable calls made by the replay loop: lrec_redo_from_record, warning
logs, item_release, the retention performed by
lrec_get_item_if_collection_link, lrec_set_item_in_snapshot_elem, and the
final close of the file descriptor. -/
inductive REvent where
  | redoCall : List Nat → REvent
  | warnEv : REvent
  | releaseItem : Nat → REvent
  | retainItem : Nat → REvent
  | attachElem : Nat → List Nat → REvent
  | closeFd : REvent
deriving Repr, DecidableEq

def releaseEvents (lastColl : Option Nat) : List REvent :=
  match lastColl with
  | some it => [REvent.releaseItem it]
  | none => []

def retainEvents (o : Option Nat) : List REvent :=
  match o with
  | some it => [REvent.retainItem it]
  | none => []

/-- The events of redoing one ItemLink record: the redo call, then a warning
when the redo did not succeed. -/
def linkEvents (ctx : ReplayCtx) (rec : List Nat) : List REvent :=
  [REvent.redoCall rec]
    ++ (if ctx.redo rec = RedoRes.success then [] else [REvent.warnEv])

/-- The events of replaying one CollectionElement record against the
retained collection item `it`: attach the item handle into the record, redo,
then a warning when the redo did not succeed. -/
def elemEvents (ctx : ReplayCtx) (it : Nat) (rec : List Nat) : List REvent :=
  [REvent.attachElem it rec, REvent.redoCall rec]
    ++ (if ctx.redo rec = RedoRes.success then [] else [REvent.warnEv])

/-- One iteration of the while loop of chkpt_snapshot_file_apply: read one
record and dispatch on its kind tag.  `lastColl` is the last_coll_it
pointer; `recurse` continues the loop at the next record. -/
def replayStep (ctx : ReplayCtx) (file : List Nat)
    (recurse : Nat → Option Nat → Option (Int × List REvent))
    (pos : Nat) (lastColl : Option Nat) : Option (Int × List REvent) :=
  if ctx.engineInit = false then some (0, [])
  else
    match readRecord ctx file pos with
    | ReadResult.shortHdr => some (-1, [])
    | ReadResult.tooBig => some (-1, [])
    | ReadResult.shortBody => some (-1, [])
    | ReadResult.ok lt rec newpos =>
      if lt = LOG_IT_LINK then
        if ctx.redo rec = RedoRes.enomem then some (-1, linkEvents ctx rec)
        else
          let newColl := ctx.getCollItem rec
          (recurse newpos newColl).map
            (fun r => (r.1,
              linkEvents ctx rec ++ releaseEvents lastColl
                ++ retainEvents newColl ++ r.2))
      else if lt = LOG_SNAPSHOT_ELEM then
        match lastColl with
        | some it =>
          if ctx.redo rec = RedoRes.enomem then some (-1, elemEvents ctx it rec)
          else
            (recurse newpos lastColl).map
              (fun r => (r.1, elemEvents ctx it rec ++ r.2))
        | none => recurse newpos lastColl
      else if lt = LOG_SNAPSHOT_DONE then
        some (0, releaseEvents lastColl)
      else
        recurse newpos lastColl

/-- The while loop of chkpt_snapshot_file_apply.  The result is the pair of
the C return value and the event trace; `none` means the fuel was exhausted
before the loop finished (with fuel above the file length this cannot
happen). -/
def replayLoop (ctx : ReplayCtx) (file : List Nat) :
    Nat → Nat → Option Nat → Option (Int × List REvent)
  | 0, _, _ => none
  | Nat.succ fuel, pos, lastColl =>
    replayStep ctx file (replayLoop ctx file fuel) pos lastColl

theorem replayLoop_succ (ctx : ReplayCtx) (file : List Nat) (fuel pos : Nat)
    (held : Option Nat) :
    replayLoop ctx file (fuel + 1) pos held =
      replayStep ctx file (replayLoop ctx file fuel) pos held := rfl

/-- chkpt_snapshot_file_apply: open the file read-only (`openOk` models the
open call; on failure return -1 with no descriptor to close), run the replay
loop from position 0 with no retained collection item, and close the file
descriptor on every exit path of the loop. -/
def chkpt_snapshot_file_apply (ctx : ReplayCtx) (openOk : Bool) (file : List Nat)
    (fuel : Nat) : Option (Int × List REvent) :=
  if openOk = false then some (-1, [])
  else
    (replayLoop ctx file fuel 0 none).map
      (fun r => (r.1, r.2 ++ [REvent.closeFd]))

/-- The reference-ownership discipline of an event trace, starting from a
given retained item: a retain may only happen when nothing is retained, a
release must name the retained item (and clears it), and an element attach
must name the retained item. -/
def traceScoped : Option Nat → List REvent → Bool
  | _, [] => true
  | held, e :: es =>
    match e with
    | REvent.releaseItem it => decide (held = some it) && traceScoped none es
    | REvent.retainItem it => decide (held = none) && traceScoped (some it) es
    | REvent.attachElem it _ => decide (held = some it) && traceScoped held es
    | _ => traceScoped held es

/-- A run of `n` consecutive CollectionElement records starting at `pos` and
ending at `posf`, none of whose redos reports out of memory; the list
collects the record bytes in file order. -/
inductive ElemSeq (ctx : ReplayCtx) (file : List Nat) :
    Nat → List (List Nat) → Nat → Prop
  | nil (pos : Nat) : ElemSeq ctx file pos [] pos
  | cons (pos pos1 posf : Nat) (rec : List Nat) (recs : List (List Nat))
      (hread : readRecord ctx file pos = ReadResult.ok LOG_SNAPSHOT_ELEM rec pos1)
      (hredo : ctx.redo rec ≠ RedoRes.enomem)
      (hrest : ElemSeq ctx file pos1 recs posf) :
      ElemSeq ctx file pos (rec :: recs) posf

/-! ### Concrete instances used by the witnesses -/

/-- A concrete snapshot state with a run in progress. -/
def runningSt : SnapshotSt :=
  { running := true, success := false, reqstop := false, mode := 1, snapped := 3,
    started := 10, stopped := 0, pfx := "a", npfx := 1, filePath := "f",
    fileFd := 5, fileSize := 0, bufCurlen := 0, cbDone := none }

/-- A concrete running DataSnapshot state. -/
def runningDataSt : SnapshotSt :=
  { runningSt with mode := CHKPT_SNAPSHOT_MODE_DATA }

/-- A concrete replay context: two-byte headers (kind tag byte, body length
byte), record capacity 8, every redo succeeding, and the ItemLink decoder
treating the linked item as collection item 7. -/
def testCtx : ReplayCtx :=
  { hdrSize := 2, maxRec := 8,
    decodeHdr := fun h => (h.headD 9, (h.drop 1).headD 0),
    redo := fun _ => RedoRes.success,
    getCollItem := fun rec => if rec.headD 9 = 0 then some 7 else none,
    engineInit := true }

/-- testCtx with every redo reporting out of memory. -/
def testCtxOOM : ReplayCtx :=
  { testCtx with redo := fun _ => RedoRes.enomem }

/-- testCtx with every redo failing without out of memory. -/
def testCtxErr : ReplayCtx :=
  { testCtx with redo := fun _ => RedoRes.other }

/-- A concrete snapshot file: one collection ItemLink record, one
CollectionElement record, one SnapshotDone record. -/
def testFile : List Nat := [0, 1, 5, 1, 1, 6, 2, 0]

/-! ## Theorems -/

/-- Claim C1: chkpt_snapshot_check_file_validity seeks to the fixed
terminal-record offset from the file end and fails when the file is shorter
than the terminal record; on a successful seek and read it returns the
terminal-record check result on the trailing bytes, reports the implied
complete file size (offset of the terminal record plus its size, i.e. the
whole file length), and resets the read position to the file start; the
check reports valid exactly when the file ends with a valid terminal
record. -/
theorem C1_check_file_validity (isDone : List Nat → Bool) (doneSize : Nat)
    (f : FileState) :
    (f.data.length < doneSize →
      chkpt_snapshot_check_file_validity isDone doneSize f = (-1, none, f)) ∧
    (doneSize ≤ f.data.length →
      chkpt_snapshot_check_file_validity isDone doneSize f =
        (if isDone (f.data.drop (f.data.length - doneSize)) then 0 else -1,
         some f.data.length, { f with pos := 0 })) ∧
    ((chkpt_snapshot_check_file_validity isDone doneSize f).1 = 0 ↔
      doneSize ≤ f.data.length ∧
        isDone (f.data.drop (f.data.length - doneSize)) = true) := by
  have hdrop : (f.data.drop (f.data.length - doneSize)).take doneSize =
      f.data.drop (f.data.length - doneSize) := by
    apply List.take_of_length_le
    simp [List.length_drop]
    omega
  by_cases hlt : f.data.length < doneSize
  · refine ⟨fun _ => ?_, fun h => absurd h (by omega), ?_⟩
    · simp [chkpt_snapshot_check_file_validity, hlt]
    · simp [chkpt_snapshot_check_file_validity, hlt]
  · have hle : doneSize ≤ f.data.length := by omega
    have hsz : f.data.length - doneSize + doneSize = f.data.length :=
      Nat.sub_add_cancel hle
    refine ⟨fun h => absurd h (by omega), fun _ => ?_, ?_⟩
    · simp [chkpt_snapshot_check_file_validity, hlt, lrec_check_snapshot_done,
            hdrop, hsz]
    · simp [chkpt_snapshot_check_file_validity, hlt, lrec_check_snapshot_done,
            hdrop, hle]

/-- Witness for C1 at a concrete file whose last two bytes form a valid
terminal record. -/
theorem C1_check_file_validity_witness :
    chkpt_snapshot_check_file_validity (fun l => l == [9, 9]) 2
        { data := [1, 2, 9, 9], pos := 5 } =
      (0, some 4, { data := [1, 2, 9, 9], pos := 0 }) := by
  have h := (C1_check_file_validity (fun l => l == [9, 9]) 2
      { data := [1, 2, 9, 9], pos := 5 }).2.1 (by decide)
  simpa using h

/-- Claim C4: starting a run (do_snapshot_start) or running one directly
(do_snapshot_direct) while a run is already in progress returns the
already-running failure outcome immediately and returns the state entirely
unchanged, for every mode, prefix, file path and callback. -/
theorem C4_already_running (action : SnapshotSt → SnapshotSt × Bool)
    (threadOk : Bool) (ss : SnapshotSt) (mode : Nat) (p : String) (np : Int)
    (filepath : Option String) (cb : Option Nat) (now : Nat)
    (h : ss.running = true) :
    do_snapshot_direct action ss mode p np filepath now = (ss, EngineErr.failed) ∧
    do_snapshot_start threadOk ss mode p np filepath cb now =
      (ss, EngineErr.failed) := by
  constructor
  · simp [do_snapshot_direct, h]
  · simp [do_snapshot_start, h]

/-- Witness for C4 at a concrete in-progress state. -/
theorem C4_already_running_witness :
    do_snapshot_direct (fun s => (s, true)) runningSt 0 "" (-1) none 0 =
      (runningSt, EngineErr.failed) ∧
    do_snapshot_start true runningSt 0 "" (-1) none none 0 =
      (runningSt, EngineErr.failed) :=
  C4_already_running (fun s => (s, true)) true runningSt 0 "" (-1) none none 0 rfl

/-- Claim C5: in the key-listing encoder the expiration field of an item is
the literal 0 when the expiry time is 0, the literal -1 when the item is
sticky, the literal 1 when the expiry time is at or before the current
logical time (never 0 or a negative value), and otherwise the positive
difference between the expiry time and the current time. -/
theorem C5_key_exptime (curtime exptime : Nat) :
    (exptime = 0 → do_snapshot_key_exptime curtime exptime = " 0\n") ∧
    (exptime = REL_TIME_STICKY →
      do_snapshot_key_exptime curtime exptime = " -1\n") ∧
    (exptime ≠ 0 → exptime ≠ REL_TIME_STICKY → exptime ≤ curtime →
      do_snapshot_key_exptime curtime exptime = " 1\n") ∧
    (exptime ≠ REL_TIME_STICKY → curtime < exptime →
      do_snapshot_key_exptime curtime exptime =
        " " ++ toString (exptime - curtime) ++ "\n" ∧
      0 < exptime - curtime) := by
  refine ⟨fun h0 => ?_, fun hs => ?_, fun h0 hs hle => ?_, fun hs hgt => ?_⟩
  · simp [do_snapshot_key_exptime, h0]
  · simp [do_snapshot_key_exptime, hs, REL_TIME_STICKY]
  · have hnot : ¬ exptime > curtime := by omega
    simp [do_snapshot_key_exptime, h0, hs, hnot]
    rfl
  · have h0 : exptime ≠ 0 := by omega
    refine ⟨by simp [do_snapshot_key_exptime, h0, hs, hgt], by omega⟩

/-- Witness for C5 at concrete times: never-expiring, sticky, already
expired, and future-expiring items. -/
theorem C5_key_exptime_witness :
    do_snapshot_key_exptime 100 0 = " 0\n" ∧
    do_snapshot_key_exptime 100 REL_TIME_STICKY = " -1\n" ∧
    do_snapshot_key_exptime 100 50 = " 1\n" ∧
    (do_snapshot_key_exptime 100 107 = " " ++ toString (107 - 100) ++ "\n" ∧
      0 < 107 - 100) :=
  ⟨(C5_key_exptime 100 0).1 rfl,
   (C5_key_exptime 100 REL_TIME_STICKY).2.1 rfl,
   (C5_key_exptime 100 50).2.2.1 (by decide) (by decide) (by decide),
   (C5_key_exptime 100 107).2.2.2 (by decide) (by decide)⟩

/-- Claim C3: the scan-drain loop of do_snapshot_action, for every sequence
of scanner results: an out-of-memory sentinel aborts the run as failed
without calling the done step; a scan-exhaustion sentinel invokes the active
mode done step and marks the run successful exactly when that step succeeds;
a zero count continues the loop without any dump; a positive count passes
the batch to the dump step, releases the batch regardless of the dump
outcome, and aborts the run as failed when the dump step failed. -/
theorem C3_scan_drain_loop (dump : List Nat → Bool) (doneOk : Bool)
    (rest : List ScanStep) (items : List Nat) :
    (do_snapshot_action_loop false dump doneOk (ScanStep.oom :: rest) =
        (false, []) ∧
      ActEvent.doneEv ∉
        (do_snapshot_action_loop false dump doneOk (ScanStep.oom :: rest)).2) ∧
    do_snapshot_action_loop false dump doneOk (ScanStep.eos :: rest) =
      (doneOk, [ActEvent.doneEv]) ∧
    do_snapshot_action_loop false dump doneOk (ScanStep.cnt [] :: rest) =
      do_snapshot_action_loop false dump doneOk rest ∧
    (items ≠ [] → dump items = true →
      do_snapshot_action_loop false dump doneOk (ScanStep.cnt items :: rest) =
        ((do_snapshot_action_loop false dump doneOk rest).1,
         ActEvent.dumpEv items :: ActEvent.releaseEv items ::
           (do_snapshot_action_loop false dump doneOk rest).2)) ∧
    (items ≠ [] → dump items = false →
      do_snapshot_action_loop false dump doneOk (ScanStep.cnt items :: rest) =
        (false, [ActEvent.dumpEv items, ActEvent.releaseEv items])) := by
  refine ⟨⟨?_, ?_⟩, ?_, ?_, fun hne hd => ?_, fun hne hd => ?_⟩
  · simp [do_snapshot_action_loop]
  · simp [do_snapshot_action_loop]
  · simp [do_snapshot_action_loop]
  · simp [do_snapshot_action_loop]
  · have hlen : items.length > 0 := List.length_pos.mpr hne
    simp [do_snapshot_action_loop, hlen, hd]
  · have hlen : items.length > 0 := List.length_pos.mpr hne
    simp [do_snapshot_action_loop, hlen, hd]

/-- Witness for C3: a one-item batch dumped successfully followed by scan
exhaustion yields a successful run with dump, release and done calls. -/
theorem C3_scan_drain_loop_witness :
    do_snapshot_action_loop false (fun _ => true) true
        (ScanStep.cnt [5] :: [ScanStep.eos]) =
      (true, [ActEvent.dumpEv [5], ActEvent.releaseEv [5], ActEvent.doneEv]) := by
  rw [(C3_scan_drain_loop (fun _ => true) true [ScanStep.eos] [5]).2.2.2.1
      (by decide) rfl]
  decide

/-- Claim C6 helper: with every write system call succeeding in full, a
single record write keeps the fill length within capacity, preserves the
capacity, succeeds, and appends the record to the stream of bytes formed by
the file contents followed by the buffer contents. -/
theorem snapshot_write_record_full (rec : List Nat) (b : BufFile)
    (hb : b.memory.length ≤ b.maxlen) (hr : rec.length ≤ b.maxlen) :
    (snapshot_write_record fullWrite rec b).2 = 0 ∧
    (snapshot_write_record fullWrite rec b).1.maxlen = b.maxlen ∧
    (snapshot_write_record fullWrite rec b).1.memory.length ≤ b.maxlen ∧
    (snapshot_write_record fullWrite rec b).1.file
        ++ (snapshot_write_record fullWrite rec b).1.memory
      = b.file ++ b.memory ++ rec := by
  by_cases hov : b.memory.length + rec.length > b.maxlen
  · simp [snapshot_write_record, do_snapshot_buffer_check_space, hov, fullWrite,
          snapshot_buffer_append, List.take_length]
    exact hr
  · simp [snapshot_write_record, do_snapshot_buffer_check_space, hov, fullWrite,
          snapshot_buffer_append]
    omega

/-- Claim C6 helper: the record-sequence version of
snapshot_write_record_full, by induction over the record list. -/
theorem snapshot_write_records_full (recs : List (List Nat)) :
    ∀ b : BufFile, b.memory.length ≤ b.maxlen →
    (∀ r ∈ recs, r.length ≤ b.maxlen) →
    (snapshot_write_records fullWrite recs b).2 = 0 ∧
    (snapshot_write_records fullWrite recs b).1.maxlen = b.maxlen ∧
    (snapshot_write_records fullWrite recs b).1.memory.length ≤ b.maxlen ∧
    (snapshot_write_records fullWrite recs b).1.file
        ++ (snapshot_write_records fullWrite recs b).1.memory
      = b.file ++ b.memory ++ recs.flatten := by
  induction recs with
  | nil => intro b hb _; simp [snapshot_write_records, hb]
  | cons rec rest ih =>
    intro b hb hall
    have hrec : rec.length ≤ b.maxlen := hall rec (by simp)
    obtain ⟨h0, hmax, hlen, hcontent⟩ := snapshot_write_record_full rec b hb hrec
    have hall2 : ∀ r ∈ rest, r.length ≤
        (snapshot_write_record fullWrite rec b).1.maxlen := by
      intro r hrmem
      rw [hmax]
      exact hall r (by simp [hrmem])
    obtain ⟨ih0, ihmax, ihlen, ihcontent⟩ :=
      ih (snapshot_write_record fullWrite rec b).1 (hmax ▸ hlen) hall2
    refine ⟨?_, ?_, ?_, ?_⟩
    · simp [snapshot_write_records, h0, ih0]
    · simp [snapshot_write_records, h0, ihmax ▸ hmax, ihmax, hmax]
    · simp only [snapshot_write_records, h0, if_pos]
      rw [← hmax]
      exact ihlen
    · simp only [snapshot_write_records, h0, if_pos]
      rw [ihcontent, hcontent]
      simp [List.append_assoc]

/-- Claim C6 helper: with all writes succeeding, a flush moves the buffered
bytes to the file and empties the buffer. -/
theorem do_snapshot_buffer_flush_full (fsyncOk : Bool) (b : BufFile) :
    do_snapshot_buffer_flush fullWrite fsyncOk b =
      ({ b with file := b.file ++ b.memory, memory := [] }, 0) := by
  by_cases hpos : b.memory.length > 0
  · simp [do_snapshot_buffer_flush, hpos, fullWrite, List.take_length]
  · have hnil : b.memory = [] := by
      cases hm : b.memory with
      | nil => rfl
      | cons x xs => rw [hm] at hpos; simp at hpos
    cases b
    simp_all [do_snapshot_buffer_flush]

/-- Claim C6: with every write succeeding, the buffer fill length never
exceeds the capacity across any sequence of ensure-space checks and
appends whose individual record sizes are at most the capacity; an
overflowing request triggers exactly one flush of the current contents
before the triggering bytes are appended; and the bytes reaching the file
(after the completing flush) are exactly the prior contents followed by the
concatenation of all encoded records in order, with nothing dropped or
duplicated. -/
theorem C6_buffer_capacity_and_content (b : BufFile) (rec : List Nat)
    (recs : List (List Nat)) (fsyncOk : Bool)
    (hb : b.memory.length ≤ b.maxlen) :
    (b.memory.length + rec.length > b.maxlen →
      do_snapshot_buffer_check_space fullWrite rec.length b =
        ({ b with file := b.file ++ b.memory, memory := [] }, 0) ∧
      snapshot_write_record fullWrite rec b =
        ({ b with file := b.file ++ b.memory, memory := rec }, 0)) ∧
    ((∀ r ∈ recs, r.length ≤ b.maxlen) →
      (snapshot_write_records fullWrite recs b).2 = 0 ∧
      (snapshot_write_records fullWrite recs b).1.memory.length ≤ b.maxlen ∧
      (do_snapshot_buffer_flush fullWrite fsyncOk
          (snapshot_write_records fullWrite recs b).1).1.file
        = b.file ++ b.memory ++ recs.flatten) := by
  constructor
  · intro hov
    constructor
    · simp [do_snapshot_buffer_check_space, hov, fullWrite, List.take_length]
    · simp [snapshot_write_record, do_snapshot_buffer_check_space, hov,
            fullWrite, List.take_length, snapshot_buffer_append]
  · intro hall
    obtain ⟨h0, _, hlen, hcontent⟩ := snapshot_write_records_full recs b hb hall
    refine ⟨h0, hlen, ?_⟩
    rw [do_snapshot_buffer_flush_full]
    simpa using hcontent

/-- Witness for C6: three records, the third of which overflows a capacity
of 4 and triggers exactly one flush. -/
theorem C6_buffer_capacity_and_content_witness :
    (snapshot_write_records fullWrite [[1, 2], [3, 4], [5, 6]]
        { maxlen := 4, memory := [], file := [] }).2 = 0 ∧
    (snapshot_write_records fullWrite [[1, 2], [3, 4], [5, 6]]
        { maxlen := 4, memory := [], file := [] }).1.memory.length ≤ 4 ∧
    (do_snapshot_buffer_flush fullWrite true
        (snapshot_write_records fullWrite [[1, 2], [3, 4], [5, 6]]
          { maxlen := 4, memory := [], file := [] }).1).1.file
      = [] ++ [] ++ [[1, 2], [3, 4], [5, 6]].flatten := by
  have h := (C6_buffer_capacity_and_content
      { maxlen := 4, memory := [], file := [] } [] [[1, 2], [3, 4], [5, 6]]
      true (by decide)).2 (by decide)
  simpa using h

/-- Claim C7 counterexample: the fsync result is discarded by the C code
(`(void)fsync(...)`), so a flush in which the durability sync fails still
reports success (0), contradicting the claim that any sync failure is
reported upward as a failure. -/
theorem C7_fsync_failure_ignored :
    do_snapshot_buffer_flush fullWrite false
        { maxlen := 4, memory := [1, 2], file := [] } =
      ({ maxlen := 4, memory := [], file := [1, 2] }, 0) := by
  decide

/-- Claim C7 as amended: any short write during a buffer flush or an
overflow-triggered ensure-space write aborts with failure (-1), the bytes
already written remain in the file (partial file) and the buffer keeps its
contents; the fsync outcome is ignored and never influences the result; and
a dump step failing (as a short write makes it do) aborts the run as
failed. -/
theorem C7_short_write_aborts (nw : Nat → Nat) (b : BufFile) (fsyncOk : Bool)
    (needsize : Nat) (dump : List Nat → Bool) (doneOk : Bool)
    (items : List Nat) (rest : List ScanStep)
    (hmem : 0 < b.memory.length) (hshort : nw b.memory.length ≠ b.memory.length) :
    do_snapshot_buffer_flush nw fsyncOk b =
      ({ b with file := b.file ++ b.memory.take (nw b.memory.length) }, -1) ∧
    (b.memory.length + needsize > b.maxlen →
      do_snapshot_buffer_check_space nw needsize b =
        ({ b with file := b.file ++ b.memory.take (nw b.memory.length) }, -1)) ∧
    (∀ b2 : BufFile,
      do_snapshot_buffer_flush nw true b2 = do_snapshot_buffer_flush nw false b2) ∧
    (items ≠ [] → dump items = false →
      do_snapshot_action_loop false dump doneOk (ScanStep.cnt items :: rest) =
        (false, [ActEvent.dumpEv items, ActEvent.releaseEv items])) := by
  refine ⟨?_, fun hov => ?_, fun b2 => ?_, fun hne hd => ?_⟩
  · simp [do_snapshot_buffer_flush, hmem, hshort]
  · simp [do_snapshot_buffer_check_space, hov, hshort]
  · simp [do_snapshot_buffer_flush]
  · have hlen : items.length > 0 := List.length_pos.mpr hne
    simp [do_snapshot_action_loop, hlen, hd]

/-- Witness for C7 as amended: a write oracle that writes only one byte of a
two-byte buffer makes flush and ensure-space fail, and a failing dump fails
the run. -/
theorem C7_short_write_aborts_witness :
    do_snapshot_buffer_flush (fun _ => 1) true
        { maxlen := 4, memory := [1, 2], file := [] } =
      ({ maxlen := 4, memory := [1, 2], file := [1] }, -1) ∧
    (4 + 3 > 4 →
      do_snapshot_buffer_check_space (fun _ => 1) 3
          { maxlen := 4, memory := [1, 2], file := [] } =
        ({ maxlen := 4, memory := [1, 2], file := [1] }, -1)) ∧
    (∀ b2 : BufFile, do_snapshot_buffer_flush (fun _ => 1) true b2 =
      do_snapshot_buffer_flush (fun _ => 1) false b2) ∧
    ([(7 : Nat)] ≠ [] → (fun _ => false) [(7 : Nat)] = false →
      do_snapshot_action_loop false (fun _ => false) true
          (ScanStep.cnt [7] :: []) =
        (false, [ActEvent.dumpEv [7], ActEvent.releaseEv [7]])) := by
  have h := C7_short_write_aborts (fun _ => 1)
      { maxlen := 4, memory := [1, 2], file := [] } true 3 (fun _ => false) true
      [7] [] (by decide) (by decide)
  refine ⟨?_, fun _ => ?_, h.2.2.1, fun h1 h2 => h.2.2.2 h1 h2⟩
  · simpa using h.1
  · simpa using h.2.1 (by decide)

/-- Claim C9 helper: whatever state the stop loop returns has either the
stop request flag set, or is the unchanged input state with no run in
progress. -/
theorem do_snapshot_stop_loop_cases (wait_stop : Bool) :
    ∀ (obs : List Bool) (ss ss2 : SnapshotSt),
      do_snapshot_stop_loop wait_stop obs ss = some ss2 →
      ss2.reqstop = true ∨ (ss2 = ss ∧ ss.running = false) := by
  cases wait_stop with
  | false =>
    intro obs ss ss2 h
    rw [do_snapshot_stop_loop] at h
    by_cases hr : ss.running = false
    · simp [hr] at h
      exact Or.inr ⟨h.symm, hr⟩
    · simp [hr] at h
      left
      subst h
      rfl
  | true =>
    intro obs
    induction obs with
    | nil =>
      intro ss ss2 h
      rw [do_snapshot_stop_loop] at h
      by_cases hr : ss.running = false
      · simp [hr] at h
        exact Or.inr ⟨h.symm, hr⟩
      · simp [hr] at h
    | cons r rest ih =>
      intro ss ss2 h
      rw [do_snapshot_stop_loop] at h
      by_cases hr : ss.running = false
      · simp [hr] at h
        exact Or.inr ⟨h.symm, hr⟩
      · simp [hr] at h
        rcases ih _ _ h with h2 | ⟨h2, _⟩
        · exact Or.inl h2
        · left
          rw [h2]

/-- Claim C9 helper: when the stop loop is entered in wait mode and
returns, the returned state has `running = false`. -/
theorem do_snapshot_stop_loop_wait_not_running :
    ∀ (obs : List Bool) (ss ss2 : SnapshotSt),
      do_snapshot_stop_loop true obs ss = some ss2 → ss2.running = false := by
  intro obs
  induction obs with
  | nil =>
    intro ss ss2 h
    by_cases hr : ss.running = false
    · rw [do_snapshot_stop_loop] at h
      simp [hr] at h
      rw [← h]
      exact hr
    · rw [do_snapshot_stop_loop] at h
      simp [hr] at h
  | cons r rest ih =>
    intro ss ss2 h
    by_cases hr : ss.running = false
    · rw [do_snapshot_stop_loop] at h
      simp [hr] at h
      rw [← h]
      exact hr
    · rw [do_snapshot_stop_loop] at h
      simp [hr] at h
      exact ih _ _ h

/-- Claim C9: do_snapshot_stop is a no-op (returning the state unchanged,
in particular leaving `running` and the cancellation flag untouched) when no
run is in progress or the active mode is CheckpointSnapshot; a waiting stop
of a DataSnapshot run returns only with `running = false`; a stop of a
running non-checkpoint run sets the cancellation flag; and in wait mode each
unlock/sleep/lock cycle consumes exactly one fresh observation of the
`running` flag. -/
theorem C9_stop_semantics (wait_stop : Bool) (obs : List Bool) (ss : SnapshotSt) :
    (ss.running = false ∨ ss.mode = CHKPT_SNAPSHOT_MODE_CHKPT →
      do_snapshot_stop wait_stop obs ss = some ss) ∧
    (∀ ss2, ss.mode = CHKPT_SNAPSHOT_MODE_DATA →
      do_snapshot_stop true obs ss = some ss2 → ss2.running = false) ∧
    (∀ ss2, ss.running = true → ss.mode ≠ CHKPT_SNAPSHOT_MODE_CHKPT →
      do_snapshot_stop wait_stop obs ss = some ss2 → ss2.reqstop = true) ∧
    (∀ r rest, ss.running = true → ss.mode ≠ CHKPT_SNAPSHOT_MODE_CHKPT →
      obs = r :: rest →
      do_snapshot_stop true obs ss =
        do_snapshot_stop_loop true rest { ss with reqstop := true, running := r }) := by
  refine ⟨fun h => ?_, fun ss2 hmode h => ?_, fun ss2 hrun hmode h => ?_,
          fun r rest hrun hmode hobs => ?_⟩
  · simp [do_snapshot_stop, h]
  · by_cases hrun : ss.running = false
    · simp [do_snapshot_stop, hrun] at h
      rw [← h]
      exact hrun
    · have hnm : ¬ (ss.mode = CHKPT_SNAPSHOT_MODE_CHKPT) := by
        rw [hmode]
        simp [CHKPT_SNAPSHOT_MODE_DATA, CHKPT_SNAPSHOT_MODE_CHKPT]
      simp [do_snapshot_stop, hrun, hnm] at h
      exact do_snapshot_stop_loop_wait_not_running obs ss ss2 h
  · have hrf : ¬ (ss.running = false) := by simp [hrun]
    simp [do_snapshot_stop, hrf, hmode] at h
    rcases do_snapshot_stop_loop_cases wait_stop obs ss ss2 h with h2 | ⟨_, h2⟩
    · exact h2
    · rw [hrun] at h2
      exact absurd h2 (by simp)
  · have hrf : ¬ (ss.running = false) := by simp [hrun]
    subst hobs
    simp [do_snapshot_stop, hrf, hmode]
    rw [do_snapshot_stop_loop]
    simp [hrf]

/-- Witness for C9: a running DataSnapshot state whose worker is observed
still running once and then stopped; the wait stop returns with
`running = false` and the stop request set, and a stopped state is left
untouched. -/
theorem C9_stop_semantics_witness :
    do_snapshot_stop true [true, false] { runningDataSt with running := false } =
      some { runningDataSt with running := false } ∧
    (∀ ss2, runningDataSt.mode = CHKPT_SNAPSHOT_MODE_DATA →
      do_snapshot_stop true [true, false] runningDataSt = some ss2 →
      ss2.running = false) ∧
    (∀ ss2, runningDataSt.running = true →
      runningDataSt.mode ≠ CHKPT_SNAPSHOT_MODE_CHKPT →
      do_snapshot_stop true [true, false] runningDataSt = some ss2 →
      ss2.reqstop = true) :=
  ⟨(C9_stop_semantics true [true, false] { runningDataSt with running := false }).1
      (Or.inl rfl),
   (C9_stop_semantics true [true, false] runningDataSt).2.1,
   (C9_stop_semantics true [true, false] runningDataSt).2.2.1⟩

/-- Claim C2 helper: the redo-and-warn events of an ItemLink record do not
touch the retained-item discipline. -/
theorem traceScoped_link (ctx : ReplayCtx) (held : Option Nat) (rec : List Nat)
    (es : List REvent) :
    traceScoped held (linkEvents ctx rec ++ es) = traceScoped held es := by
  by_cases h : ctx.redo rec = RedoRes.success <;>
    simp [linkEvents, h, traceScoped]

/-- Claim C2 helper: the events of one CollectionElement replayed against
the currently retained item pass the discipline check and leave the retained
item unchanged. -/
theorem traceScoped_elem (ctx : ReplayCtx) (it : Nat) (rec : List Nat)
    (es : List REvent) :
    traceScoped (some it) (elemEvents ctx it rec ++ es) =
      traceScoped (some it) es := by
  by_cases h : ctx.redo rec = RedoRes.success <;>
    simp [elemEvents, h, traceScoped]

/-- Claim C2 helper: releasing the currently retained item and then
retaining a new one is well-scoped and leaves the new item retained. -/
theorem traceScoped_relret (held o : Option Nat) (es : List REvent) :
    traceScoped held (releaseEvents held ++ (retainEvents o ++ es)) =
      traceScoped o es := by
  cases held <;> cases o <;>
    simp [releaseEvents, retainEvents, traceScoped]

/-- Claim C2 helper: the events of an ItemLink record alone are
well-scoped. -/
theorem traceScoped_linkEvents_nil (ctx : ReplayCtx) (held : Option Nat)
    (rec : List Nat) :
    traceScoped held (linkEvents ctx rec) = true := by
  by_cases h : ctx.redo rec = RedoRes.success <;>
    simp [linkEvents, h, traceScoped]

/-- Claim C2 helper: the events of one CollectionElement record alone are
well-scoped under the retained item they attach to. -/
theorem traceScoped_elemEvents_nil (ctx : ReplayCtx) (it : Nat) (rec : List Nat) :
    traceScoped (some it) (elemEvents ctx it rec) = true := by
  by_cases h : ctx.redo rec = RedoRes.success <;>
    simp [elemEvents, h, traceScoped]

/-- Claim C2 helper: the release of the retained item (if any) at the
terminal record is well-scoped. -/
theorem traceScoped_release_nil (held : Option Nat) :
    traceScoped held (releaseEvents held) = true := by
  cases held <;> simp [releaseEvents, traceScoped]

/-- Claim C2 helper: the trailing close of the file descriptor does not
affect the retained-item discipline. -/
theorem traceScoped_closeFd (es : List REvent) :
    ∀ held : Option Nat,
      traceScoped held (es ++ [REvent.closeFd]) = traceScoped held es := by
  induction es with
  | nil => intro held; rfl
  | cons e rest ih =>
    intro held
    cases e <;> simp [traceScoped, ih]


/-- Replay step lemma: an uninitialized engine ends the loop with status 0
and no events. -/
theorem replayStep_notInit (ctx : ReplayCtx) (file : List Nat)
    (recurse : Nat → Option Nat → Option (Int × List REvent)) (pos : Nat)
    (held : Option Nat) (hinit : ctx.engineInit = false) :
    replayStep ctx file recurse pos held = some (0, []) := by
  simp [replayStep, hinit]

/-- Replay step lemma: a short header read aborts with -1 and no events. -/
theorem replayStep_shortHdr (ctx : ReplayCtx) (file : List Nat)
    (recurse : Nat → Option Nat → Option (Int × List REvent)) (pos : Nat)
    (held : Option Nat) (hinit : ctx.engineInit = true)
    (hread : readRecord ctx file pos = ReadResult.shortHdr) :
    replayStep ctx file recurse pos held = some (-1, []) := by
  simp [replayStep, hinit, hread]

/-- Replay step lemma: an oversized declared body aborts with -1 and no
events. -/
theorem replayStep_tooBig (ctx : ReplayCtx) (file : List Nat)
    (recurse : Nat → Option Nat → Option (Int × List REvent)) (pos : Nat)
    (held : Option Nat) (hinit : ctx.engineInit = true)
    (hread : readRecord ctx file pos = ReadResult.tooBig) :
    replayStep ctx file recurse pos held = some (-1, []) := by
  simp [replayStep, hinit, hread]

/-- Replay step lemma: a short body read aborts with -1 and no events. -/
theorem replayStep_shortBody (ctx : ReplayCtx) (file : List Nat)
    (recurse : Nat → Option Nat → Option (Int × List REvent)) (pos : Nat)
    (held : Option Nat) (hinit : ctx.engineInit = true)
    (hread : readRecord ctx file pos = ReadResult.shortBody) :
    replayStep ctx file recurse pos held = some (-1, []) := by
  simp [replayStep, hinit, hread]

/-- Replay step lemma: an ItemLink record whose redo reports out of memory
aborts with -1 after the redo call and its warning. -/
theorem replayStep_link_enomem (ctx : ReplayCtx) (file : List Nat)
    (recurse : Nat → Option Nat → Option (Int × List REvent)) (pos : Nat)
    (held : Option Nat) (rec : List Nat) (newpos : Nat)
    (hinit : ctx.engineInit = true)
    (hread : readRecord ctx file pos = ReadResult.ok LOG_IT_LINK rec newpos)
    (hen : ctx.redo rec = RedoRes.enomem) :
    replayStep ctx file recurse pos held = some (-1, linkEvents ctx rec) := by
  simp [replayStep, hinit, hread, hen]

/-- Replay step lemma: an ItemLink record whose redo does not report out of
memory continues the loop at the next record, releasing the previously
retained collection item and retaining the newly linked one (when it is a
collection). -/
theorem replayStep_link_cont (ctx : ReplayCtx) (file : List Nat)
    (recurse : Nat → Option Nat → Option (Int × List REvent)) (pos : Nat)
    (held : Option Nat) (rec : List Nat) (newpos : Nat)
    (hinit : ctx.engineInit = true)
    (hread : readRecord ctx file pos = ReadResult.ok LOG_IT_LINK rec newpos)
    (hen : ctx.redo rec ≠ RedoRes.enomem) :
    replayStep ctx file recurse pos held =
      (recurse newpos (ctx.getCollItem rec)).map
        (fun r => (r.1, linkEvents ctx rec ++ releaseEvents held
          ++ retainEvents (ctx.getCollItem rec) ++ r.2)) := by
  simp [replayStep, hinit, hread, hen]

/-- Replay step lemma: a CollectionElement record with a retained collection
item whose redo reports out of memory aborts with -1 after the attach, the
redo call and its warning. -/
theorem replayStep_elem_enomem (ctx : ReplayCtx) (file : List Nat)
    (recurse : Nat → Option Nat → Option (Int × List REvent)) (pos : Nat)
    (it : Nat) (rec : List Nat) (newpos : Nat)
    (hinit : ctx.engineInit = true)
    (hread : readRecord ctx file pos = ReadResult.ok LOG_SNAPSHOT_ELEM rec newpos)
    (hen : ctx.redo rec = RedoRes.enomem) :
    replayStep ctx file recurse pos (some it) =
      some (-1, elemEvents ctx it rec) := by
  simp [replayStep, hinit, hread, hen, LOG_SNAPSHOT_ELEM, LOG_IT_LINK]

/-- Replay step lemma: a CollectionElement record with a retained collection
item whose redo does not report out of memory continues the loop with the
same retained item. -/
theorem replayStep_elem_cont (ctx : ReplayCtx) (file : List Nat)
    (recurse : Nat → Option Nat → Option (Int × List REvent)) (pos : Nat)
    (it : Nat) (rec : List Nat) (newpos : Nat)
    (hinit : ctx.engineInit = true)
    (hread : readRecord ctx file pos = ReadResult.ok LOG_SNAPSHOT_ELEM rec newpos)
    (hen : ctx.redo rec ≠ RedoRes.enomem) :
    replayStep ctx file recurse pos (some it) =
      (recurse newpos (some it)).map
        (fun r => (r.1, elemEvents ctx it rec ++ r.2)) := by
  simp [replayStep, hinit, hread, hen, LOG_SNAPSHOT_ELEM, LOG_IT_LINK]

/-- Replay step lemma: a CollectionElement record while no collection item
is retained is silently skipped: no redo, no warning, no retained-state
change, the loop just continues at the next record. -/
theorem replayStep_elem_none (ctx : ReplayCtx) (file : List Nat)
    (recurse : Nat → Option Nat → Option (Int × List REvent)) (pos : Nat)
    (rec : List Nat) (newpos : Nat)
    (hinit : ctx.engineInit = true)
    (hread : readRecord ctx file pos = ReadResult.ok LOG_SNAPSHOT_ELEM rec newpos) :
    replayStep ctx file recurse pos none = recurse newpos none := by
  simp [replayStep, hinit, hread, LOG_SNAPSHOT_ELEM, LOG_IT_LINK]

/-- Replay step lemma: the SnapshotDone record releases the retained
collection item (if any) and ends the loop successfully. -/
theorem replayStep_done (ctx : ReplayCtx) (file : List Nat)
    (recurse : Nat → Option Nat → Option (Int × List REvent)) (pos : Nat)
    (held : Option Nat) (rec : List Nat) (newpos : Nat)
    (hinit : ctx.engineInit = true)
    (hread : readRecord ctx file pos = ReadResult.ok LOG_SNAPSHOT_DONE rec newpos) :
    replayStep ctx file recurse pos held = some (0, releaseEvents held) := by
  simp [replayStep, hinit, hread, LOG_SNAPSHOT_DONE, LOG_SNAPSHOT_ELEM, LOG_IT_LINK]

/-- Replay step lemma: a record whose kind tag is none of ItemLink,
CollectionElement or SnapshotDone is silently skipped: no redo, no warning,
no retained-state change, the loop just continues at the next record. -/
theorem replayStep_unknown (ctx : ReplayCtx) (file : List Nat)
    (recurse : Nat → Option Nat → Option (Int × List REvent)) (pos : Nat)
    (held : Option Nat) (lt : Nat) (rec : List Nat) (newpos : Nat)
    (hinit : ctx.engineInit = true)
    (hread : readRecord ctx file pos = ReadResult.ok lt rec newpos)
    (h0 : lt ≠ LOG_IT_LINK) (h1 : lt ≠ LOG_SNAPSHOT_ELEM)
    (h2 : lt ≠ LOG_SNAPSHOT_DONE) :
    replayStep ctx file recurse pos held = recurse newpos held := by
  cases held <;> simp [replayStep, hinit, hread, h0, h1, h2]

/-- Claim C2 helper: every trace the replay loop can produce respects the
single-retained-collection-item discipline, starting from the retained item
it was entered with. -/
theorem replayLoop_traceScoped (ctx : ReplayCtx) (file : List Nat) :
    ∀ (fuel pos : Nat) (held : Option Nat) (r : Int) (es : List REvent),
      replayLoop ctx file fuel pos held = some (r, es) →
      traceScoped held es = true := by
  intro fuel
  induction fuel with
  | zero =>
    intro pos held r es h
    simp [replayLoop] at h
  | succ n ih =>
    intro pos held r es h
    rw [replayLoop_succ] at h
    by_cases hinit : ctx.engineInit = true
    case neg =>
      have hif : ctx.engineInit = false := by
        cases hx : ctx.engineInit
        · rfl
        · exact absurd hx hinit
      rw [replayStep_notInit ctx file _ pos held hif] at h
      simp at h
      rw [h.2]
      rfl
    case pos =>
      cases hrr : readRecord ctx file pos with
      | shortHdr =>
        rw [replayStep_shortHdr ctx file _ pos held hinit hrr] at h
        simp at h
        rw [h.2]
        rfl
      | tooBig =>
        rw [replayStep_tooBig ctx file _ pos held hinit hrr] at h
        simp at h
        rw [h.2]
        rfl
      | shortBody =>
        rw [replayStep_shortBody ctx file _ pos held hinit hrr] at h
        simp at h
        rw [h.2]
        rfl
      | ok lt rec newpos =>
        by_cases hlt : lt = LOG_IT_LINK
        · subst hlt
          by_cases hen : ctx.redo rec = RedoRes.enomem
          · rw [replayStep_link_enomem ctx file _ pos held rec newpos hinit hrr hen]
              at h
            simp at h
            rw [← h.2]
            exact traceScoped_linkEvents_nil ctx held rec
          · rw [replayStep_link_cont ctx file _ pos held rec newpos hinit hrr hen]
              at h
            cases hrec : replayLoop ctx file n newpos (ctx.getCollItem rec) with
            | none => rw [hrec] at h; simp at h
            | some p =>
              obtain ⟨p1, p2⟩ := p
              rw [hrec] at h
              simp at h
              rw [← h.2]
              rw [traceScoped_link, traceScoped_relret]
              exact ih newpos (ctx.getCollItem rec) p1 p2 hrec
        · by_cases hel : lt = LOG_SNAPSHOT_ELEM
          · subst hel
            cases held with
            | none =>
              rw [replayStep_elem_none ctx file _ pos rec newpos hinit hrr] at h
              exact ih newpos none r es h
            | some it =>
              by_cases hen : ctx.redo rec = RedoRes.enomem
              · rw [replayStep_elem_enomem ctx file _ pos it rec newpos hinit hrr
                  hen] at h
                simp at h
                rw [← h.2]
                exact traceScoped_elemEvents_nil ctx it rec
              · rw [replayStep_elem_cont ctx file _ pos it rec newpos hinit hrr
                  hen] at h
                cases hrec : replayLoop ctx file n newpos (some it) with
                | none => rw [hrec] at h; simp at h
                | some p =>
                  obtain ⟨p1, p2⟩ := p
                  rw [hrec] at h
                  simp at h
                  rw [← h.2, traceScoped_elem]
                  exact ih newpos (some it) p1 p2 hrec
          · by_cases hdn : lt = LOG_SNAPSHOT_DONE
            · subst hdn
              rw [replayStep_done ctx file _ pos held rec newpos hinit hrr] at h
              simp at h
              rw [← h.2]
              exact traceScoped_release_nil held
            · rw [replayStep_unknown ctx file _ pos held lt rec newpos hinit hrr
                hlt hel hdn] at h
              exact ih newpos held r es h

/-- Claim C2 helper: a run of consecutive CollectionElement records replayed
while collection item `it` is retained contributes exactly one attach (and
redo) per record, in file order, and leaves the retained item unchanged. -/
theorem replayLoop_elemSeq (ctx : ReplayCtx) (file : List Nat)
    (hinit : ctx.engineInit = true) (it : Nat) :
    ∀ (pos : Nat) (recs : List (List Nat)) (posf : Nat),
      ElemSeq ctx file pos recs posf →
      ∀ fuel : Nat,
        replayLoop ctx file (recs.length + fuel) pos (some it) =
          (replayLoop ctx file fuel posf (some it)).map
            (fun r => (r.1, (recs.map (elemEvents ctx it)).flatten ++ r.2)) := by
  intro pos recs posf hseq
  induction hseq with
  | nil p =>
    intro fuel
    simp only [List.length_nil, Nat.zero_add, List.map_nil, List.flatten_nil,
      List.nil_append]
    cases replayLoop ctx file fuel p (some it) with
    | none => rfl
    | some r => simp
  | cons pos0 pos1 posf0 rec recs0 hread hredo hrest ih =>
    intro fuel
    have hlen : (rec :: recs0).length + fuel = recs0.length + fuel + 1 := by
      simp [List.length_cons]
      omega
    rw [hlen, replayLoop_succ,
        replayStep_elem_cont ctx file _ pos0 it rec pos1 hinit hread hredo,
        ih fuel]
    cases replayLoop ctx file fuel posf0 (some it) with
    | none => rfl
    | some r => simp

/-- Claim C2: during replay, at most one collection item reference is
retained at a time, the previously retained one being released before a new
ItemLink retains another, and element attaches always target the currently
retained item (part one, as a trace discipline, for the loop and for the
whole of chkpt_snapshot_file_apply); a collection ItemLink followed by N
CollectionElement records attaches exactly N elements to that item, in file
order (part two); and a CollectionElement record encountered while no
collection item is retained is never attached to any item — the loop just
moves to the next record (part three). -/
theorem C2_replay_collection_discipline (ctx : ReplayCtx) (file : List Nat) :
    (∀ (fuel pos : Nat) (held : Option Nat) (r : Int) (es : List REvent),
      replayLoop ctx file fuel pos held = some (r, es) →
      traceScoped held es = true) ∧
    (∀ (fuel : Nat) (r : Int) (es : List REvent),
      chkpt_snapshot_file_apply ctx true file fuel = some (r, es) →
      traceScoped none es = true) ∧
    (ctx.engineInit = true →
      ∀ (fuel pos : Nat) (held : Option Nat) (recL : List Nat) (posL it : Nat)
        (recs : List (List Nat)) (posf : Nat),
      readRecord ctx file pos = ReadResult.ok LOG_IT_LINK recL posL →
      ctx.redo recL ≠ RedoRes.enomem →
      ctx.getCollItem recL = some it →
      ElemSeq ctx file posL recs posf →
      replayLoop ctx file (recs.length + fuel + 1) pos held =
        (replayLoop ctx file fuel posf (some it)).map
          (fun r => (r.1,
            linkEvents ctx recL ++ releaseEvents held ++ [REvent.retainItem it]
              ++ (recs.map (elemEvents ctx it)).flatten ++ r.2))) ∧
    (ctx.engineInit = true →
      ∀ (fuel pos : Nat) (rec : List Nat) (newpos : Nat),
      readRecord ctx file pos = ReadResult.ok LOG_SNAPSHOT_ELEM rec newpos →
      replayLoop ctx file (fuel + 1) pos none =
        replayLoop ctx file fuel newpos none) := by
  refine ⟨replayLoop_traceScoped ctx file, ?_, ?_, ?_⟩
  · intro fuel r es h
    simp only [chkpt_snapshot_file_apply] at h
    simp at h
    obtain ⟨a, b, hrec, _, hes⟩ := h
    rw [← hes, traceScoped_closeFd]
    exact replayLoop_traceScoped ctx file fuel 0 none a b hrec
  · intro hinit fuel pos held recL posL it recs posf hread hredo hcoll hseq
    rw [replayLoop_succ,
        replayStep_link_cont ctx file _ pos held recL posL hinit hread hredo,
        hcoll, replayLoop_elemSeq ctx file hinit it posL recs posf hseq fuel]
    cases replayLoop ctx file fuel posf (some it) with
    | none => rfl
    | some r => simp [retainEvents]
  · intro hinit fuel pos rec newpos hread
    rw [replayLoop_succ, replayStep_elem_none ctx file _ pos rec newpos hinit hread]

/-- Witness for C2 on a concrete file (collection ItemLink, one element,
terminal record): the produced trace respects the retain/release
discipline, the ItemLink-then-one-element region contributes exactly the
retain and one attach, and an element record at the head of a file replayed
with nothing retained is skipped. -/
theorem C2_replay_collection_discipline_witness :
    traceScoped none
      [REvent.redoCall [0, 1, 5], REvent.retainItem 7,
       REvent.attachElem 7 [1, 1, 6], REvent.redoCall [1, 1, 6],
       REvent.releaseItem 7] = true ∧
    replayLoop testCtx testFile 3 0 none =
      (replayLoop testCtx testFile 1 6 (some 7)).map
        (fun r => (r.1,
          linkEvents testCtx [0, 1, 5] ++ releaseEvents none
            ++ [REvent.retainItem 7]
            ++ ([[1, 1, 6]].map (elemEvents testCtx 7)).flatten ++ r.2)) ∧
    replayLoop testCtx [1, 1, 6, 2, 0] 2 0 none =
      replayLoop testCtx [1, 1, 6, 2, 0] 1 3 none := by
  refine ⟨?_, ?_, ?_⟩
  · exact (C2_replay_collection_discipline testCtx testFile).1 9 0 none 0
      [REvent.redoCall [0, 1, 5], REvent.retainItem 7,
       REvent.attachElem 7 [1, 1, 6], REvent.redoCall [1, 1, 6],
       REvent.releaseItem 7] (by decide)
  · exact (C2_replay_collection_discipline testCtx testFile).2.2.1 rfl 1 0 none
      [0, 1, 5] 3 7 [[1, 1, 6]] 6 (by decide) (by decide) (by decide)
      (ElemSeq.cons 3 6 6 [1, 1, 6] [] (by decide) (by decide) (ElemSeq.nil 6))
  · exact (C2_replay_collection_discipline testCtx [1, 1, 6, 2, 0]).2.2.2 rfl 1 0
      [1, 1, 6] 3 (by decide)

/-- Claim C10: during replay, a well-formed record whose kind tag is none of
ItemLink, CollectionElement or SnapshotDone is silently skipped — no redo
call, no warning, the retained collection item unchanged, the loop simply
continuing at the next record — and the same silent skip applies to a
CollectionElement record arriving while no collection item is retained. -/
theorem C10_unknown_record_skipped (ctx : ReplayCtx) (file : List Nat)
    (hinit : ctx.engineInit = true) :
    (∀ (fuel pos : Nat) (held : Option Nat) (lt : Nat) (rec : List Nat)
        (newpos : Nat),
      readRecord ctx file pos = ReadResult.ok lt rec newpos →
      lt ≠ LOG_IT_LINK → lt ≠ LOG_SNAPSHOT_ELEM → lt ≠ LOG_SNAPSHOT_DONE →
      replayLoop ctx file (fuel + 1) pos held =
        replayLoop ctx file fuel newpos held) ∧
    (∀ (fuel pos : Nat) (rec : List Nat) (newpos : Nat),
      readRecord ctx file pos = ReadResult.ok LOG_SNAPSHOT_ELEM rec newpos →
      replayLoop ctx file (fuel + 1) pos none =
        replayLoop ctx file fuel newpos none) := by
  constructor
  · intro fuel pos held lt rec newpos hread h0 h1 h2
    rw [replayLoop_succ,
        replayStep_unknown ctx file _ pos held lt rec newpos hinit hread h0 h1 h2]
  · intro fuel pos rec newpos hread
    rw [replayLoop_succ, replayStep_elem_none ctx file _ pos rec newpos hinit hread]

/-- Witness for C10: a record with unknown kind tag 3 is skipped, and an
element record with nothing retained is skipped; in both concrete files the
remaining terminal record then ends the replay successfully with no further
events. -/
theorem C10_unknown_record_skipped_witness :
    replayLoop testCtx [3, 0, 2, 0] 2 0 none =
      replayLoop testCtx [3, 0, 2, 0] 1 2 none ∧
    replayLoop testCtx [1, 1, 6, 2, 0] 2 0 none =
      replayLoop testCtx [1, 1, 6, 2, 0] 1 3 none ∧
    replayLoop testCtx [3, 0, 2, 0] 1 2 none = some (0, []) := by
  refine ⟨?_, ?_, by decide⟩
  · exact (C10_unknown_record_skipped testCtx [3, 0, 2, 0] rfl).1 1 0 none 3
      [3, 0] 2 (by decide) (by decide) (by decide) (by decide)
  · exact (C10_unknown_record_skipped testCtx [1, 1, 6, 2, 0] rfl).2 1 0
      [1, 1, 6] 3 (by decide)

/-- Claim C8: during replay, a short header read, a declared body length
exceeding the maximum record body capacity, or a short body read aborts the
replay with the fatal status -1; a redo failure signalling out of memory is
fatal and aborts the replay; a redo failure that is not out of memory is
logged as a warning and replay continues with the next record; and the file
descriptor is closed on every exit path of the loop. -/
theorem C8_replay_error_handling (ctx : ReplayCtx) (file : List Nat)
    (hinit : ctx.engineInit = true) :
    (∀ (fuel pos : Nat) (held : Option Nat),
      file.length - pos < ctx.hdrSize →
      replayLoop ctx file (fuel + 1) pos held = some (-1, [])) ∧
    (∀ (fuel pos : Nat) (held : Option Nat),
      ctx.hdrSize ≤ file.length - pos →
      0 < (ctx.decodeHdr ((file.drop pos).take ctx.hdrSize)).2 →
      ctx.maxRec - ctx.hdrSize <
        (ctx.decodeHdr ((file.drop pos).take ctx.hdrSize)).2 →
      replayLoop ctx file (fuel + 1) pos held = some (-1, [])) ∧
    (∀ (fuel pos : Nat) (held : Option Nat),
      ctx.hdrSize ≤ file.length - pos →
      0 < (ctx.decodeHdr ((file.drop pos).take ctx.hdrSize)).2 →
      (ctx.decodeHdr ((file.drop pos).take ctx.hdrSize)).2 ≤
        ctx.maxRec - ctx.hdrSize →
      file.length - (pos + ctx.hdrSize) <
        (ctx.decodeHdr ((file.drop pos).take ctx.hdrSize)).2 →
      replayLoop ctx file (fuel + 1) pos held = some (-1, [])) ∧
    (∀ (fuel pos : Nat) (held : Option Nat) (rec : List Nat) (newpos : Nat),
      readRecord ctx file pos = ReadResult.ok LOG_IT_LINK rec newpos →
      ctx.redo rec = RedoRes.enomem →
      replayLoop ctx file (fuel + 1) pos held =
        some (-1, [REvent.redoCall rec, REvent.warnEv])) ∧
    (∀ (fuel pos it : Nat) (rec : List Nat) (newpos : Nat),
      readRecord ctx file pos = ReadResult.ok LOG_SNAPSHOT_ELEM rec newpos →
      ctx.redo rec = RedoRes.enomem →
      replayLoop ctx file (fuel + 1) pos (some it) =
        some (-1, [REvent.attachElem it rec, REvent.redoCall rec, REvent.warnEv])) ∧
    (∀ (fuel pos : Nat) (held : Option Nat) (rec : List Nat) (newpos : Nat),
      readRecord ctx file pos = ReadResult.ok LOG_IT_LINK rec newpos →
      ctx.redo rec = RedoRes.other →
      replayLoop ctx file (fuel + 1) pos held =
        (replayLoop ctx file fuel newpos (ctx.getCollItem rec)).map
          (fun r => (r.1,
            [REvent.redoCall rec, REvent.warnEv] ++ releaseEvents held
              ++ retainEvents (ctx.getCollItem rec) ++ r.2))) ∧
    (∀ (fuel pos it : Nat) (rec : List Nat) (newpos : Nat),
      readRecord ctx file pos = ReadResult.ok LOG_SNAPSHOT_ELEM rec newpos →
      ctx.redo rec = RedoRes.other →
      replayLoop ctx file (fuel + 1) pos (some it) =
        (replayLoop ctx file fuel newpos (some it)).map
          (fun r => (r.1,
            [REvent.attachElem it rec, REvent.redoCall rec, REvent.warnEv]
              ++ r.2))) ∧
    (∀ (fuel : Nat) (r : Int) (es : List REvent),
      chkpt_snapshot_file_apply ctx true file fuel = some (r, es) →
      ∃ es1, es = es1 ++ [REvent.closeFd]) := by
  refine ⟨fun fuel pos held hshort => ?_, fun fuel pos held hle hpos hbig => ?_,
    fun fuel pos held hle hpos hfit hbody => ?_,
    fun fuel pos held rec newpos hread hen => ?_,
    fun fuel pos it rec newpos hread hen => ?_,
    fun fuel pos held rec newpos hread hot => ?_,
    fun fuel pos it rec newpos hread hot => ?_,
    fun fuel r es h => ?_⟩
  · have hread : readRecord ctx file pos = ReadResult.shortHdr := by
      simp [readRecord, hshort]
    rw [replayLoop_succ, replayStep_shortHdr ctx file _ pos held hinit hread]
  · have hread : readRecord ctx file pos = ReadResult.tooBig := by
      simp [readRecord, Nat.not_lt.mpr hle, hpos, hbig]
    rw [replayLoop_succ, replayStep_tooBig ctx file _ pos held hinit hread]
  · have hread : readRecord ctx file pos = ReadResult.shortBody := by
      simp [readRecord, Nat.not_lt.mpr hle, hpos, Nat.not_lt.mpr hfit, hbody]
    rw [replayLoop_succ, replayStep_shortBody ctx file _ pos held hinit hread]
  · rw [replayLoop_succ,
        replayStep_link_enomem ctx file _ pos held rec newpos hinit hread hen]
    simp [linkEvents, hen]
  · rw [replayLoop_succ,
        replayStep_elem_enomem ctx file _ pos it rec newpos hinit hread hen]
    simp [elemEvents, hen]
  · have hne : ctx.redo rec ≠ RedoRes.enomem := by simp [hot]
    rw [replayLoop_succ,
        replayStep_link_cont ctx file _ pos held rec newpos hinit hread hne]
    cases replayLoop ctx file fuel newpos (ctx.getCollItem rec) with
    | none => rfl
    | some r => simp [linkEvents, hot]
  · have hne : ctx.redo rec ≠ RedoRes.enomem := by simp [hot]
    rw [replayLoop_succ,
        replayStep_elem_cont ctx file _ pos it rec newpos hinit hread hne]
    cases replayLoop ctx file fuel newpos (some it) with
    | none => rfl
    | some r => simp [elemEvents, hot]
  · simp only [chkpt_snapshot_file_apply] at h
    simp at h
    obtain ⟨a, b, _, _, hes⟩ := h
    exact ⟨b, hes.symm⟩

/-- Witness for C8 on concrete files: a truncated header aborts, an
oversized body aborts, a short body aborts, an out-of-memory redo aborts
after the warning, a non-fatal redo failure is tolerated and the replay of
the rest still finishes successfully, and the trace of a successful apply
ends with the descriptor close. -/
theorem C8_replay_error_handling_witness :
    replayLoop testCtx [0] 1 0 none = some (-1, []) ∧
    replayLoop testCtx [0, 9, 5] 1 0 none = some (-1, []) ∧
    replayLoop testCtx [0, 2, 5] 1 0 none = some (-1, []) ∧
    replayLoop testCtxOOM testFile 3 0 none =
      some (-1, [REvent.redoCall [0, 1, 5], REvent.warnEv]) ∧
    replayLoop testCtxErr [0, 0, 2, 0] 2 0 none =
      (replayLoop testCtxErr [0, 0, 2, 0] 1 2 (testCtxErr.getCollItem [0, 0])).map
        (fun r => (r.1,
          [REvent.redoCall [0, 0], REvent.warnEv] ++ releaseEvents none
            ++ retainEvents (testCtxErr.getCollItem [0, 0]) ++ r.2)) ∧
    (∃ es1, [REvent.redoCall [0, 1, 5], REvent.retainItem 7,
      REvent.attachElem 7 [1, 1, 6], REvent.redoCall [1, 1, 6],
      REvent.releaseItem 7, REvent.closeFd] = es1 ++ [REvent.closeFd]) := by
  refine ⟨?_, ?_, ?_, ?_, ?_, ?_⟩
  · exact (C8_replay_error_handling testCtx [0] rfl).1 0 0 none (by decide)
  · exact (C8_replay_error_handling testCtx [0, 9, 5] rfl).2.1 0 0 none
      (by decide) (by decide) (by decide)
  · exact (C8_replay_error_handling testCtx [0, 2, 5] rfl).2.2.1 0 0 none
      (by decide) (by decide) (by decide) (by decide)
  · exact (C8_replay_error_handling testCtxOOM testFile rfl).2.2.2.1 2 0 none
      [0, 1, 5] 3 (by decide) (by decide)
  · exact (C8_replay_error_handling testCtxErr [0, 0, 2, 0] rfl).2.2.2.2.2.1 1 0
      none [0, 0] 2 (by decide) (by decide)
  · exact (C8_replay_error_handling testCtx testFile rfl).2.2.2.2.2.2.2 9 0
      [REvent.redoCall [0, 1, 5], REvent.retainItem 7,
       REvent.attachElem 7 [1, 1, 6], REvent.redoCall [1, 1, 6],
       REvent.releaseItem 7, REvent.closeFd] (by decide)
